import Mathlib

/-!
Shallow embedding of the meta-cms-worker task orchestration core.

The definitions below are translated from the TypeScript sources:
  - `src/src/utils/index.ts`   (formatUrl, createSymlink, exists)
  - `src/src/git/index.ts`     (GitService.fetchRepository / pushRepository)
  - `src/unnamed/part_005`     (HexoService: config merge, marker files,
                                post fan-out, rename handling)
  - `src/src/task/index.ts`    (startWorkerTask dispatcher)
Machine integers do not occur; JavaScript strings are modelled as `String`,
optional / possibly-`undefined` fields as `Option`, promise rejection as
`Except`, and the file system as explicit state.
-/

namespace MetaCmsWorker

/-! ## JavaScript primitives -/

/-- JS truthiness of a possibly-undefined string: `undefined` and the empty
string are falsy, every other string is truthy. -/
def jsTruthy : Option String → Bool
  | none => false
  | some s => s ≠ ""

/-- JS `a || d` for strings: returns `d` exactly when `a` is the empty string
(the only falsy string). -/
def jsOrDefault (a d : String) : String :=
  if a = "" then d else a

/-! ## Constants (`src/unnamed/part_004`, src/constants) -/

def DEFAULT_HEXO_AVATAR_URL : String :=
  "https://ipfs.fleek.co/ipfs/bafybeiccss3figrixd5qhhv6i6zhbz5chmyls6ja5kscu6drg7fnjcnxgm"

def DEFAULT_HEXO_LANGUAGE : String := "en"

def DEFAULT_HEXO_TIMEZONE : String := "Asia/Shanghai"

def DEFAULT_HEXO_PUBLIC_URL : String := "https://example.com"

/-! ## `formatUrl` (`src/src/utils/index.ts` lines 13-22) -/

/-- A JS exception value. -/
inductive JsError where
  | typeError (msg : String)
  | enoent (path : String)
deriving DecidableEq

/-- The test `new RegExp('^https?://').test(url)`. -/
def startsWithHttpProtocol (url : String) : Bool :=
  url.startsWith "http://" || url.startsWith "https://"

/-- The platform `URL` builtin, modelled only as far as the source uses it:
`new URL(url)` for an http(s) url, set `protocol = 'https'`, read `href`.
Modelled as protocol replacement on the textual url. -/
def urlToHttpsHref (url : String) : String :=
  if url.startsWith "http://" then "https://" ++ url.drop 7 else url

/-- `formatUrl` from `src/src/utils/index.ts`:
`assert(url, ...)` throws a TypeError when `url` is falsy; an http(s) url is
normalised to https; anything else gets an `https://` prefix. -/
def formatUrl (url : String) : Except JsError String :=
  if url = "" then
    Except.error (JsError.typeError "parameter url is required!")
  else if startsWithHttpProtocol url then
    Except.ok (urlToHttpsHref url)
  else
    Except.ok ("https://" ++ url)

/-! ## File-system model and `createSymlink` (`src/src/utils/index.ts` lines 64-82) -/

/-- The set of existing paths, as a list. -/
abbrev FsPaths := List String

/-- The semantics of the async `exists` helper from `src/src/utils/index.ts`
(`fs.access`-based existence test), i.e. the value the un-awaited promise
would resolve to. -/
def pathExists (fs : FsPaths) (p : String) : Bool :=
  fs.contains p

/-- `fs.rename(oldPath, newPath)`: rejects with ENOENT when `oldPath` does not
exist, otherwise moves the entry. -/
def fsRename (fs : FsPaths) (oldPath newPath : String) : Except JsError FsPaths :=
  if pathExists fs oldPath then
    Except.ok (newPath :: fs.erase oldPath)
  else
    Except.error (JsError.enoent oldPath)

/-- fs-extra `ensureSymlink(source, destination)`: creates the link (and any
parent directories) when the destination does not exist, otherwise no-op. -/
def ensureSymlink (fs : FsPaths) (_source destination : String) : FsPaths :=
  if pathExists fs destination then fs else destination :: fs

/-- `createSymlink` from `src/src/utils/index.ts` lines 64-82, translated
faithfully.  Two calls in the source pass the promise returned by `exists`
without `await`:
  - `assert(exists(sourcePath), ...)` — the promise object is truthy, so this
    assert can never fire (no error when the source is missing);
  - `if (exists(destinationPath)) { await fs.rename(...) }` — the promise
    object is truthy, so the rename branch is always taken.
`path.resolve` is elided (paths are modelled as already absolute). -/
def createSymlink (fs : FsPaths) (source destination : String) :
    Except JsError FsPaths :=
  if source = "" then
    Except.error (JsError.typeError "parameter source is required!")
  else if destination = "" then
    Except.error (JsError.typeError "parameter destination is required!")
  else
    -- the `if (exists(destinationPath))` condition is an un-awaited promise,
    -- hence always truthy: the rename is attempted unconditionally
    match fsRename fs destination (destination ++ ".bak") with
    | Except.error e => Except.error e
    | Except.ok fs1 => Except.ok (ensureSymlink fs1 source destination)

/-- What the `createSymlink` source evidently intends (its in-code comment:
`If destination is exists, rename with .bak`): rename only when the
destination actually exists.  Stated for comparison with `createSymlink`. -/
def createSymlinkIntended (fs : FsPaths) (source destination : String) :
    Except JsError FsPaths :=
  if source = "" then
    Except.error (JsError.typeError "parameter source is required!")
  else if destination = "" then
    Except.error (JsError.typeError "parameter destination is required!")
  else if pathExists fs destination then
    match fsRename fs destination (destination ++ ".bak") with
    | Except.error e => Except.error e
    | Except.ok fs1 => Except.ok (ensureSymlink fs1 source destination)
  else
    Except.ok (ensureSymlink fs source destination)

/-! ## Marker files (`src/unnamed/part_005` lines 504-533) -/

/-- `path.join(dir, file)`. -/
def joinPath (dir file : String) : String := dir ++ "/" ++ file

/-- File-system state for the marker-file operations: the existing file paths
plus an audit trace of every `fs.writeFile` performed. -/
structure MarkerFs where
  files : List String
  writes : List String
deriving DecidableEq

/-- Awaited `exists` on the marker file system. -/
def markerExists (fs : MarkerFs) (p : String) : Bool :=
  fs.files.contains p

/-- `HexoService.createDotNoJekyllFile(workDir, disableNoJekyll?)` from
`src/unnamed/part_005` lines 504-517: returns early when disabled, skips the
write when `.nojekyll` already exists, otherwise writes it. -/
def createDotNoJekyllFile (fs : MarkerFs) (workDir : String)
    (disableNoJekyll : Bool) : MarkerFs :=
  if disableNoJekyll then fs
  else
    let filePath := joinPath workDir ".nojekyll"
    if markerExists fs filePath then fs
    else { files := filePath :: fs.files, writes := fs.writes ++ [filePath] }

/-- `HexoService.createCNameFile(workDir, content)` from `src/unnamed/part_005`
lines 519-533: `if (!content) return;` skips falsy (empty) content, the
`fs.mkdir(workDir, recursive)` touches directories only, the write is skipped
when `CNAME` already exists. -/
def createCNameFile (fs : MarkerFs) (workDir : String) (content : String) :
    MarkerFs :=
  if content = "" then fs
  else
    let filePath := joinPath workDir "CNAME"
    if markerExists fs filePath then fs
    else { files := filePath :: fs.files, writes := fs.writes ++ [filePath] }

/-! ## Hexo generator-config merge (`src/unnamed/part_005` lines 221-254) -/

/-- A partial flat config object: a map from key to optional value.  The value
type is abstract; the merge is a shallow object-spread and never inspects
values. -/
def ConfigObj (V : Type) := String → Option V

/-- JS object spread `{...a, ...b}` on flat string-keyed objects: keys of `b`
win. -/
def objectSpread {V : Type} (a b : ConfigObj V) : ConfigObj V :=
  fun k =>
    match b k with
    | some v => some v
    | none => a k

/-- The merged config built by `HexoService.updateWorkspaceHexoConfigFile`
(`src/unnamed/part_005` lines 233-239):
`{ ...deftConf, ...hexoConf, ...tempConf, ...workConf, ...userConf }` where the
layers are, in order: worker default, Hexo internal default, template,
workspace, task-derived. -/
def buildFinalHexoConfig {V : Type}
    (deftConf hexoConf tempConf workConf userConf : ConfigObj V) : ConfigObj V :=
  objectSpread
    (objectSpread (objectSpread (objectSpread deftConf hexoConf) tempConf)
      workConf)
    userConf

/-! ## Task-config-derived Hexo config (`src/unnamed/part_005` lines 155-194) -/

/-- `MetaWorker.Info.UCenterUser`, the fields the source reads. -/
structure UCenterUser where
  username : String
  nickname : String
deriving DecidableEq

/-- Site metadata carried by a deploy / publish task config, the fields read by
`getHexoConfigFromTaskConfig`.  Possibly-undefined string fields are modelled
as `String` with `""` for absent (JS falsy). -/
structure SiteInfo where
  title : String
  subtitle : String
  description : String
  author : String
  avatar : String
  keywords : Option (List String)
  language : String
  timezone : String
  domain : String
deriving DecidableEq

/-- The Hexo user config object assembled by `getHexoConfigFromTaskConfig`. -/
structure HexoUserConf where
  title : String
  subtitle : String
  description : String
  author : String
  avatar : String
  keywords : List String
  language : String
  timezone : String
  url : String
deriving DecidableEq

/-- `HexoService.getHexoConfigFromTaskConfig` from `src/unnamed/part_005`
lines 155-194.  For a deploy or publish task it builds the user config,
computing `url: formatUrl(site.domain) || DEFAULT_HEXO_PUBLIC_URL`; the throw
of `formatUrl`'s assert propagates out of the method.  A deploy task
additionally falls the author back to the user's nickname / username.  Any
other task kind yields the empty config (`none` here). -/
def getHexoConfigFromTaskConfig (isDeploy isPublish : Bool)
    (site : SiteInfo) (user : UCenterUser) :
    Except JsError (Option HexoUserConf) :=
  if isDeploy || isPublish then
    match formatUrl site.domain with
    | Except.error e => Except.error e
    | Except.ok fu =>
      let userConf : HexoUserConf :=
        { title := site.title
          subtitle := site.subtitle
          description := site.description
          author := site.author
          avatar := jsOrDefault site.avatar DEFAULT_HEXO_AVATAR_URL
          keywords := site.keywords.getD []
          language := jsOrDefault site.language DEFAULT_HEXO_LANGUAGE
          timezone := jsOrDefault site.timezone DEFAULT_HEXO_TIMEZONE
          url := jsOrDefault fu DEFAULT_HEXO_PUBLIC_URL }
      let userConf :=
        if isDeploy then
          { userConf with
            author := jsOrDefault userConf.author
              (jsOrDefault user.nickname user.username) }
        else userConf
      Except.ok (some userConf)
  else
    Except.ok none

/-! ## Post records and per-post operations (`src/unnamed/part_005`) -/

/-- `MetaWorker.Info.Post`: the fields the orchestrator reads.  The rename
marker `META_SPACE_INTERNAL_NEW_TITLE` is a dynamic property in the source,
modelled as an optional field (`none` = property absent). -/
structure Post where
  title : String
  source : String
  createdAt : Option String := none
  updatedAt : Option String := none
  tags : Option (List String) := none
  categories : Option (List String) := none
  summary : Option String := none
  META_SPACE_INTERNAL_NEW_TITLE : Option String := none
deriving DecidableEq

/-- The generator-native post record built by
`convertMetaPostInfoToHexoPostInfo`. -/
structure HexoPostInfo where
  layout : String
  slug : String
  title : String
  content : String
  date : String
  updated : String
  tags : List String
  categories : List String
  excerpt : String
deriving DecidableEq

/-- JS `a || b || c` over possibly-undefined strings. -/
def jsOrOpt (a : Option String) (b : String) : String :=
  match a with
  | none => b
  | some s => if s = "" then b else s

/-- `HexoService.convertMetaPostInfoToHexoPostInfo` from `src/unnamed/part_005`
lines 579-598.  `nowISO` is the ambient `new Date(Date.now()).toISOString()`. -/
def convertMetaPostInfoToHexoPostInfo (post : Post) (layout : String)
    (nowISO : String) : HexoPostInfo :=
  { layout := layout
    slug := post.title
    title := post.title
    content := post.source
    date := jsOrOpt post.createdAt (jsOrOpt post.updatedAt nowISO)
    updated := jsOrOpt post.updatedAt nowISO
    tags := post.tags.getD []
    categories := post.categories.getD []
    excerpt := post.summary.getD "" }

/-- `HexoService.processMetaSpaceInternalProperties` from
`src/unnamed/part_005` lines 560-577: when a `META_SPACE_INTERNAL` property is
present, the title is replaced by `META_SPACE_INTERNAL_NEW_TITLE` and all
internal properties are stripped (`omitObj`); the only internal property in
the data model is the new-title marker. -/
def processMetaSpaceInternalProperties (post : Post) : Post :=
  match post.META_SPACE_INTERNAL_NEW_TITLE with
  | none => post
  | some t => { post with title := t, META_SPACE_INTERNAL_NEW_TITLE := none }

/-- An invocation of the Hexo command helper, as performed by the wrappers
`removeHexoPostFile` / `createHexoPostFile` (`src/unnamed/part_005`
lines 602-634). -/
inductive HexoAction where
  | removePost (title : String) (layout : String)
  | createPost (title : String) (layout : String) (replace : Bool)
deriving DecidableEq

/-- `HexoService.removeHexoPostFile`: converts the post and invokes
`this.hexo.remove(data, layout)`. -/
def removeHexoPostFile (post : Post) (layout : String) (nowISO : String) :
    HexoAction :=
  HexoAction.removePost
    (convertMetaPostInfoToHexoPostInfo post layout nowISO).title layout

/-- `HexoService.createHexoPostFile`: converts the post and invokes
`this.hexo.create(data, layout, replace)`. -/
def createHexoPostFile (post : Post) (layout : String) (replace : Bool)
    (nowISO : String) : HexoAction :=
  HexoAction.createPost
    (convertMetaPostInfoToHexoPostInfo post layout nowISO).title layout replace

/-- The Hexo-helper invocations performed by the per-post lambda of
`HexoService.createHexoPostFiles` (`src/unnamed/part_005` lines 726-736):
when the post carries a truthy `META_SPACE_INTERNAL_NEW_TITLE` the old post
file is removed first (`removeHexoPostFile(post, 'post')`, keyed by the
original title), then the processed post (title rewritten to the new title,
marker stripped) is created with `replace = update`. -/
def createPostTaskActions (update : Bool) (nowISO : String) (post : Post) :
    List HexoAction :=
  (if jsTruthy post.META_SPACE_INTERNAL_NEW_TITLE then
    [removeHexoPostFile post "post" nowISO]
  else [])
  ++ [createHexoPostFile (processMetaSpaceInternalProperties post) "post"
        update nowISO]

/-! ## Per-post fan-out (`src/unnamed/part_005` lines 636-682, 719-739) -/

/-- One `PromiseSettledResult<void>`. -/
inductive SettledStatus where
  | fulfilled
  | rejected (reason : String)
deriving DecidableEq

/-- How `Promise.allSettled` settles one promise. -/
def settleOutcome : Except String Unit → SettledStatus
  | Except.ok _ => SettledStatus.fulfilled
  | Except.error e => SettledStatus.rejected e

/-- `Promise.allSettled(post.map(processer))`: every element is attempted and
settled independently — one settled result per input, no short-circuit. -/
def promiseAllSettled (posts : List Post)
    (processer : Post → Except String Unit) : List SettledStatus :=
  posts.map (fun p => settleOutcome (processer p))

/-- `type PostTaskResult = MetaWorker.Info.Post & PromiseSettledResult<void>`:
the post merged with its settled result
(`Object.assign({}, _post, result[index])`). -/
structure PostTaskResult where
  post : Post
  result : SettledStatus
deriving DecidableEq

/-- `HexoService.processHexoPostFile` from `src/unnamed/part_005`
lines 636-661: maps the processer over the batch, joins with
`Promise.allSettled`, and pairs every post with its own settled result by
index.  The processer parameter is the per-post lambda of the calling public
method; its failures come from the injected Hexo command helper
(`hexo.create` / `hexo.remove` throwing), so it is kept abstract here to
quantify over which posts fail. -/
def processHexoPostFile (posts : List Post)
    (processer : Post → Except String Unit) : List PostTaskResult :=
  (posts.zip (promiseAllSettled posts processer)).map
    (fun pr => { post := pr.1, result := pr.2 })

/-- Is this settled result a rejection? -/
def isRejectedResult (r : PostTaskResult) : Bool :=
  match r.result with
  | SettledStatus.rejected _ => true
  | SettledStatus.fulfilled => false

/-- The rejection reason (empty for a fulfilled result). -/
def settledReason : SettledStatus → String
  | SettledStatus.rejected reason => reason
  | SettledStatus.fulfilled => ""

/-- `MetaInternalResult<PostTaskResult>` as constructed by
`processPostTaskResults`. -/
structure MetaInternalResult where
  statusCode : Nat
  retryable : Bool
  data : PostTaskResult
  message : String
deriving DecidableEq

/-- `HexoService.processPostTaskResults` from `src/unnamed/part_005`
lines 663-682: filters the rejected results and reports each one to the
backend as a non-retryable error tagged with the failing post's data.  The
returned list is the sequence of reports sent
(`backend.reportWorkerTaskErroredToBackend`, one per rejected result). -/
def processPostTaskResults (results : List PostTaskResult) :
    List MetaInternalResult :=
  (results.filter isRejectedResult).map
    (fun rej =>
      { statusCode := 500
        retryable := false
        data := rej
        message := settledReason rej.result })

/-- `HexoService.createHexoPostFiles` (`src/unnamed/part_005` lines 719-739)
at the fan-out level: asserts the task is a post task, runs the per-post
fan-out and reports the failures; the method resolves with the reports sent.
The `update` flag only selects the `replace` flag inside the per-post lambda
(see `createPostTaskActions`) and does not affect the fan-out shape; the
lambda's outcome is the `processer` parameter. -/
def createHexoPostFiles (isPost : Bool) (posts : List Post)
    (processer : Post → Except String Unit) :
    Except String (List MetaInternalResult) :=
  if isPost then
    Except.ok (processPostTaskResults (processHexoPostFile posts processer))
  else
    Except.error "Task config is not for create post"

/-- `HexoService.createHexoDraftFiles` (`src/unnamed/part_005` lines 741-761):
same fan-out and reporting, draft layout inside the lambda. -/
def createHexoDraftFiles (isPost : Bool) (posts : List Post)
    (processer : Post → Except String Unit) :
    Except String (List MetaInternalResult) :=
  if isPost then
    Except.ok (processPostTaskResults (processHexoPostFile posts processer))
  else
    Except.error "Task config is not for create draft"

/-- `HexoService.deleteHexoPostFiles` (`src/unnamed/part_005` lines 795-809):
same fan-out and reporting, per-post removal inside the lambda. -/
def deleteHexoPostFiles (isPost : Bool) (posts : List Post)
    (processer : Post → Except String Unit) :
    Except String (List MetaInternalResult) :=
  if isPost then
    Except.ok (processPostTaskResults (processHexoPostFile posts processer))
  else
    Except.error "Task config is not for delete post"

/-- Does the per-post operation for this post fail? -/
def failingPost (processer : Post → Except String Unit) (p : Post) : Bool :=
  match processer p with
  | Except.error _ => true
  | Except.ok _ => false

/-! ## Git credential scoping (`src/src/git/index.ts` lines 76-111) -/

/-- The observable auth state of the repository's configuration. -/
structure RepoAuthState where
  authConfigured : Bool
deriving DecidableEq

/-- Modelled from the spec: the auth helper (`src/git/helpers/auth`, not part
of the provided sources) — `configureAuth()` injects the ephemeral credentials
into the repository configuration. -/
def configureAuth (_s : RepoAuthState) : RepoAuthState :=
  { authConfigured := true }

/-- Modelled from the spec: the auth helper's `removeAuth()` strips the
credentials from the repository configuration. -/
def removeAuth (_s : RepoAuthState) : RepoAuthState :=
  { authConfigured := false }

/-- A rejected git command. -/
inductive GitError where
  | fetchFailed
  | pushFailed
deriving DecidableEq

/-- `GitService.fetchRepository` from `src/src/git/index.ts` lines 76-94,
with failure injection for the awaited `git.fetch`: init, set remote,
`auth.configureAuth()`, `git.fetch(...)`, `auth.removeAuth()` — written
sequentially in the source with no try/finally, so a rejection of `git.fetch`
propagates before `removeAuth` runs.  The result pairs the repository state
after the operation with the propagated rejection, if any. -/
def fetchRepository (fetchFails : Bool) (s : RepoAuthState) :
    RepoAuthState × Option GitError :=
  -- git.init(); setRepositoryRemote(git, gitInfo)
  let s1 := configureAuth s
  if fetchFails then (s1, some GitError.fetchFailed)
  else (removeAuth s1, none)

/-- `GitService.pushRepository` from `src/src/git/index.ts` lines 96-111,
with failure injection for the awaited `git.push`: set remote,
`auth.configureAuth()`, `git.push('origin', branch, force)`,
`auth.removeAuth()` — again no try/finally around the push. -/
def pushRepository (pushFails : Bool) (_force : Bool) (s : RepoAuthState) :
    RepoAuthState × Option GitError :=
  let s1 := configureAuth s
  if pushFails then (s1, some GitError.pushFailed)
  else (removeAuth s1, none)

/-! ## Task dispatcher (`src/src/task/index.ts`) -/

/-- `MetaWorker.Enums.WorkerTaskMethod`; `UNKNOWN name` stands for any method
value outside the five the dispatcher knows. -/
inductive WorkerTaskMethod where
  | DEPLOY_SITE
  | PUBLISH_SITE
  | CREATE_POSTS
  | UPDATE_POSTS
  | DELETE_POSTS
  | UNKNOWN (name : String)
deriving DecidableEq

/-- `siteTasks` from `src/src/task/index.ts` lines 18-21. -/
def siteTasks : List WorkerTaskMethod :=
  [WorkerTaskMethod.DEPLOY_SITE, WorkerTaskMethod.PUBLISH_SITE]

/-- `postTasks` from `src/src/task/index.ts` lines 22-26. -/
def postTasks : List WorkerTaskMethod :=
  [WorkerTaskMethod.CREATE_POSTS, WorkerTaskMethod.UPDATE_POSTS,
   WorkerTaskMethod.DELETE_POSTS]

/-- `allowedTasks = [...siteTasks, ...postTasks]`. -/
def allowedTasks : List WorkerTaskMethod := siteTasks ++ postTasks

/-- Modelled from the spec: `checkAllowedTasks` from `@metaio/worker-common`
(an external collaborator, not under the provided sources) throws exactly when
the task method is not in the allow-list; `true` here means the check
passes. -/
def checkAllowedTasks (m : WorkerTaskMethod)
    (allowed : List WorkerTaskMethod) : Bool :=
  allowed.contains m

/-- One orchestrator operation awaited by `startWorkerTask`, at the
granularity the dispatcher invokes them.  `attemptPost` is one per-post
processer invocation inside the fan-out; `reportErrored` is one backend error
report sent by `processPostTaskResults`. -/
inductive Op where
  | gitServiceFactory
  | hexoServiceFactory
  | createStorageRepository
  | fetchRemoteStorageRepository
  | commitStorageRepositoryAllChanges (msg : String)
  | pushStorageRepositoryToRemote
  | publishSiteToGitHubPages
  | createWorkspaceSourceDirectory
  | symlinkWorkspaceDirectoryAndFiles
  | generateHexoStaticFiles
  | createDotNoJekyllAndCNameFile
  | attemptPost (title : String)
  | reportErrored (title : String)
deriving DecidableEq

/-- The operations performed by one post fan-out
(`processHexoPostFile` followed by `processPostTaskResults`): every post in
the batch is attempted, then one error report is sent per rejected post. -/
def processHexoPostFileOps (posts : List Post)
    (processer : Post → Except String Unit) : List Op :=
  posts.map (fun p => Op.attemptPost p.title)
  ++ (processPostTaskResults (processHexoPostFile posts processer)).map
      (fun r => Op.reportErrored r.data.post.title)

/-- `startWorkerTask` from `src/src/task/index.ts`, as the sequence of
orchestrator operations it awaits on the run where every awaited operation
resolves, mirroring the source's three sequential method guards.
`checkAllowedTasks` runs before any branch; when it throws, the error is
returned with the (empty) operation trace emitted up to that point.  `posts`
and `processer` feed the post fan-out; `now` is the ambient `Date.now()` used
in the commit messages. -/
def startWorkerTask (m : WorkerTaskMethod) (posts : List Post)
    (processer : Post → Except String Unit) (now : Nat) :
    List Op × Option String :=
  if checkAllowedTasks m allowedTasks then
    let deployOps :=
      if m = WorkerTaskMethod.DEPLOY_SITE then
        [Op.gitServiceFactory, Op.createStorageRepository,
         Op.hexoServiceFactory, Op.createWorkspaceSourceDirectory,
         Op.commitStorageRepositoryAllChanges ("Deploy site " ++ toString now),
         Op.pushStorageRepositoryToRemote]
      else []
    let publishOps :=
      if m = WorkerTaskMethod.PUBLISH_SITE then
        [Op.gitServiceFactory, Op.fetchRemoteStorageRepository,
         Op.hexoServiceFactory,
         Op.commitStorageRepositoryAllChanges ("Update config " ++ toString now),
         Op.pushStorageRepositoryToRemote,
         Op.symlinkWorkspaceDirectoryAndFiles, Op.generateHexoStaticFiles,
         Op.createDotNoJekyllAndCNameFile, Op.publishSiteToGitHubPages]
      else []
    let postOps :=
      if postTasks.contains m then
        [Op.gitServiceFactory, Op.fetchRemoteStorageRepository,
         Op.hexoServiceFactory, Op.symlinkWorkspaceDirectoryAndFiles]
        ++ (if m = WorkerTaskMethod.CREATE_POSTS then
              processHexoPostFileOps posts processer
              ++ [Op.commitStorageRepositoryAllChanges
                    ("Create post " ++ toString now)]
            else [])
        ++ (if m = WorkerTaskMethod.UPDATE_POSTS then
              processHexoPostFileOps posts processer
              ++ [Op.commitStorageRepositoryAllChanges
                    ("Update post " ++ toString now)]
            else [])
        ++ (if m = WorkerTaskMethod.DELETE_POSTS then
              processHexoPostFileOps posts processer
              ++ [Op.commitStorageRepositoryAllChanges
                    ("Delete post " ++ toString now)]
            else [])
        ++ [Op.pushStorageRepositoryToRemote]
      else []
    (deployOps ++ publishOps ++ postOps, none)
  else
    ([], some "not allowed task method")

/-! ## Operation predicates (used to state invocation counts and ordering) -/

def isFetchOp : Op → Bool
  | Op.fetchRemoteStorageRepository => true
  | _ => false

def isCommitOp : Op → Bool
  | Op.commitStorageRepositoryAllChanges _ => true
  | _ => false

def isPushOp : Op → Bool
  | Op.pushStorageRepositoryToRemote => true
  | _ => false

def isSymlinkOp : Op → Bool
  | Op.symlinkWorkspaceDirectoryAndFiles => true
  | _ => false

def isGenerateOp : Op → Bool
  | Op.generateHexoStaticFiles => true
  | _ => false

def isMarkerFilesOp : Op → Bool
  | Op.createDotNoJekyllAndCNameFile => true
  | _ => false

def isPublishPagesOp : Op → Bool
  | Op.publishSiteToGitHubPages => true
  | _ => false

/-- Post-specific operations: the per-post fan-out attempts and the backend
error reports. -/
def isPostSpecificOp : Op → Bool
  | Op.attemptPost _ => true
  | Op.reportErrored _ => true
  | _ => false

/-- Deploy-specific operations: `createStorageRepository` and
`createWorkspaceSourceDirectory`. -/
def isDeploySpecificOp : Op → Bool
  | Op.createStorageRepository => true
  | Op.createWorkspaceSourceDirectory => true
  | _ => false

/-! ## Helper lemmas -/

/-- A string with an `https://` prefix is not empty. -/
lemma https_prefix_ne_empty (x : String) : "https://" ++ x ≠ "" := by
  intro h
  have h' := congrArg String.length h
  rw [String.length_append] at h'
  have h8 : ("https://" : String).length = 8 := by decide
  have h0 : ("" : String).length = 0 := by decide
  omega

/-- The fan-out pairs every post with its own settled outcome. -/
lemma processHexoPostFile_eq (posts : List Post)
    (f : Post → Except String Unit) :
    processHexoPostFile posts f
      = posts.map (fun p =>
          ({ post := p, result := settleOutcome (f p) } : PostTaskResult)) := by
  induction posts with
  | nil => rfl
  | cons p ps ih =>
    simp only [processHexoPostFile, promiseAllSettled, List.map_cons,
      List.zip_cons_cons] at ih ⊢
    simp [ih]

/-- The reports produced by a fan-out: one per failing post, in batch order. -/
lemma processPostTaskResults_fanout (posts : List Post)
    (f : Post → Except String Unit) :
    processPostTaskResults (processHexoPostFile posts f)
      = (posts.filter (failingPost f)).map
          (fun p =>
            ({ statusCode := 500
               retryable := false
               data := { post := p, result := settleOutcome (f p) }
               message := settledReason (settleOutcome (f p)) }
              : MetaInternalResult)) := by
  rw [processHexoPostFile_eq]
  induction posts with
  | nil => rfl
  | cons p ps ih =>
    simp only [processPostTaskResults] at ih ⊢
    cases hfp : f p with
    | ok v =>
      have h1 : isRejectedResult
          { post := p, result := settleOutcome (f p) } = false := by
        simp [isRejectedResult, settleOutcome, hfp]
      have h2 : failingPost f p = false := by simp [failingPost, hfp]
      simp only [List.map_cons, List.filter_cons, h1, h2, cond_false]
      exact ih
    | error e =>
      have h1 : isRejectedResult
          { post := p, result := settleOutcome (f p) } = true := by
        simp [isRejectedResult, settleOutcome, hfp]
      have h2 : failingPost f p = true := by simp [failingPost, hfp]
      simp only [List.map_cons, List.filter_cons, h1, h2, cond_true]
      simp [ih]

/-- The dispatcher trace of a resolving PUBLISH_SITE task. -/
lemma publish_trace (posts : List Post)
    (processer : Post → Except String Unit) (now : Nat) :
    startWorkerTask WorkerTaskMethod.PUBLISH_SITE posts processer now
      = ([Op.gitServiceFactory, Op.fetchRemoteStorageRepository,
          Op.hexoServiceFactory,
          Op.commitStorageRepositoryAllChanges ("Update config " ++ toString now),
          Op.pushStorageRepositoryToRemote,
          Op.symlinkWorkspaceDirectoryAndFiles, Op.generateHexoStaticFiles,
          Op.createDotNoJekyllAndCNameFile, Op.publishSiteToGitHubPages],
         none) := by
  have h : checkAllowedTasks WorkerTaskMethod.PUBLISH_SITE allowedTasks = true := by
    decide
  have h2 : WorkerTaskMethod.PUBLISH_SITE ∉ postTasks := by decide
  simp [startWorkerTask, h, h2]

/-- The dispatcher trace of a resolving CREATE_POSTS task. -/
lemma create_posts_trace (posts : List Post)
    (processer : Post → Except String Unit) (now : Nat) :
    startWorkerTask WorkerTaskMethod.CREATE_POSTS posts processer now
      = ([Op.gitServiceFactory, Op.fetchRemoteStorageRepository,
          Op.hexoServiceFactory, Op.symlinkWorkspaceDirectoryAndFiles]
          ++ processHexoPostFileOps posts processer
          ++ [Op.commitStorageRepositoryAllChanges ("Create post " ++ toString now),
              Op.pushStorageRepositoryToRemote],
         none) := by
  have h : checkAllowedTasks WorkerTaskMethod.CREATE_POSTS allowedTasks = true := by
    decide
  have h2 : WorkerTaskMethod.CREATE_POSTS ∈ postTasks := by decide
  simp [startWorkerTask, h, h2]

/-! ## Claim theorems -/

/-- Claim C1, counterexample: starting from a repository without configured
auth, a fetch (resp. push) whose underlying `git.fetch` (resp. `git.push`)
rejects leaves the auth configuration PRESENT — `removeAuth` is not reached on
the failure path, contradicting the claim that it is performed on every
execution path. -/
theorem auth_remains_after_failed_fetch_or_push :
    (fetchRepository true { authConfigured := false }).1.authConfigured = true
    ∧ (fetchRepository true { authConfigured := false }).2
        = some GitError.fetchFailed
    ∧ (pushRepository true false { authConfigured := false }).1.authConfigured
        = true
    ∧ (pushRepository true false { authConfigured := false }).2
        = some GitError.pushFailed := by
  decide

/-- Claim C1, amended: `removeAuth` follows `configureAuth` only on the
success path.  When fetch / push resolves the auth configuration is absent
afterwards; when the underlying `git.fetch` / `git.push` rejects, the error
propagates with the auth configuration still present. -/
theorem auth_scoped_on_success_only (s : RepoAuthState) (force : Bool) :
    (fetchRepository false s).1.authConfigured = false
    ∧ (fetchRepository false s).2 = none
    ∧ (pushRepository false force s).1.authConfigured = false
    ∧ (pushRepository false force s).2 = none
    ∧ (fetchRepository true s).1.authConfigured = true
    ∧ (pushRepository true force s).1.authConfigured = true := by
  simp [fetchRepository, pushRepository, configureAuth, removeAuth]

/-- Claim C3: for a task method outside the allow-list, `startWorkerTask`
rejects via `checkAllowedTasks` with an empty operation trace — neither
service factory nor any orchestrator operation has been invoked. -/
theorem disallowed_method_rejects_before_side_effects
    (m : WorkerTaskMethod) (posts : List Post)
    (processer : Post → Except String Unit) (now : Nat)
    (h : checkAllowedTasks m allowedTasks = false) :
    startWorkerTask m posts processer now
      = ([], some "not allowed task method") := by
  simp [startWorkerTask, h]

/-- Witness for claim C3 at the concrete method `HEXO_CREATE_POST` (a legacy
method name outside the allow-list). -/
theorem disallowed_method_rejects_before_side_effects_witness :
    checkAllowedTasks (WorkerTaskMethod.UNKNOWN "HEXO_CREATE_POST")
        allowedTasks = false
    ∧ startWorkerTask (WorkerTaskMethod.UNKNOWN "HEXO_CREATE_POST") []
        (fun _ => Except.ok ()) 0
      = ([], some "not allowed task method") :=
  ⟨by decide,
   disallowed_method_rejects_before_side_effects
     (WorkerTaskMethod.UNKNOWN "HEXO_CREATE_POST") [] (fun _ => Except.ok ()) 0
     (by decide)⟩

/-- Claim C4: the PUBLISH_SITE pipeline invokes fetch, commit, push, symlink,
generate, marker-files and publish-to-pages each exactly once, in exactly that
order, and invokes no post-specific or deploy-specific operation. -/
theorem publish_pipeline_exactly_once_in_order (posts : List Post)
    (processer : Post → Except String Unit) (now : Nat) :
    ((startWorkerTask WorkerTaskMethod.PUBLISH_SITE posts processer now).1.countP
        isFetchOp = 1)
    ∧ ((startWorkerTask WorkerTaskMethod.PUBLISH_SITE posts processer now).1.countP
        isCommitOp = 1)
    ∧ ((startWorkerTask WorkerTaskMethod.PUBLISH_SITE posts processer now).1.countP
        isPushOp = 1)
    ∧ ((startWorkerTask WorkerTaskMethod.PUBLISH_SITE posts processer now).1.countP
        isSymlinkOp = 1)
    ∧ ((startWorkerTask WorkerTaskMethod.PUBLISH_SITE posts processer now).1.countP
        isGenerateOp = 1)
    ∧ ((startWorkerTask WorkerTaskMethod.PUBLISH_SITE posts processer now).1.countP
        isMarkerFilesOp = 1)
    ∧ ((startWorkerTask WorkerTaskMethod.PUBLISH_SITE posts processer now).1.countP
        isPublishPagesOp = 1)
    ∧ ((startWorkerTask WorkerTaskMethod.PUBLISH_SITE posts processer now).1.findIdx
          isFetchOp
        < (startWorkerTask WorkerTaskMethod.PUBLISH_SITE posts processer now).1.findIdx
          isCommitOp)
    ∧ ((startWorkerTask WorkerTaskMethod.PUBLISH_SITE posts processer now).1.findIdx
          isCommitOp
        < (startWorkerTask WorkerTaskMethod.PUBLISH_SITE posts processer now).1.findIdx
          isPushOp)
    ∧ ((startWorkerTask WorkerTaskMethod.PUBLISH_SITE posts processer now).1.findIdx
          isPushOp
        < (startWorkerTask WorkerTaskMethod.PUBLISH_SITE posts processer now).1.findIdx
          isSymlinkOp)
    ∧ ((startWorkerTask WorkerTaskMethod.PUBLISH_SITE posts processer now).1.findIdx
          isSymlinkOp
        < (startWorkerTask WorkerTaskMethod.PUBLISH_SITE posts processer now).1.findIdx
          isGenerateOp)
    ∧ ((startWorkerTask WorkerTaskMethod.PUBLISH_SITE posts processer now).1.findIdx
          isGenerateOp
        < (startWorkerTask WorkerTaskMethod.PUBLISH_SITE posts processer now).1.findIdx
          isMarkerFilesOp)
    ∧ ((startWorkerTask WorkerTaskMethod.PUBLISH_SITE posts processer now).1.findIdx
          isMarkerFilesOp
        < (startWorkerTask WorkerTaskMethod.PUBLISH_SITE posts processer now).1.findIdx
          isPublishPagesOp)
    ∧ ((startWorkerTask WorkerTaskMethod.PUBLISH_SITE posts processer now).1.countP
        isPostSpecificOp = 0)
    ∧ ((startWorkerTask WorkerTaskMethod.PUBLISH_SITE posts processer now).1.countP
        isDeploySpecificOp = 0) := by
  simp [publish_trace, List.countP_cons, List.findIdx_cons,
    isFetchOp, isCommitOp, isPushOp, isSymlinkOp, isGenerateOp,
    isMarkerFilesOp, isPublishPagesOp, isPostSpecificOp, isDeploySpecificOp]

/-- Claim C5, counterexample: in the PUBLISH_SITE trace the static-output
generation does NOT precede the storage-repository commit — the code commits
and pushes the storage repository before symlinking and generating, so the
claimed order (generation and marker writes before commit/push) is false. -/
theorem publish_generation_not_before_commit :
    ¬ ((startWorkerTask WorkerTaskMethod.PUBLISH_SITE []
          (fun _ => Except.ok ()) 0).1.findIdx isGenerateOp
        < (startWorkerTask WorkerTaskMethod.PUBLISH_SITE []
            (fun _ => Except.ok ()) 0).1.findIdx isCommitOp) := by
  decide

/-- Claim C5, amended: for PUBLISH_SITE the pipeline performs Git fetch, then
commit and push of the storage repository, then symlink, then static-output
generation, then the platform marker-file writes, then publish to the pages
repository — generation and marker writes happen after the storage-repository
commit/push and before the pages publish. -/
theorem publish_actual_pipeline_order (posts : List Post)
    (processer : Post → Except String Unit) (now : Nat) :
    ((startWorkerTask WorkerTaskMethod.PUBLISH_SITE posts processer now).1.findIdx
        isFetchOp
      < (startWorkerTask WorkerTaskMethod.PUBLISH_SITE posts processer now).1.findIdx
        isCommitOp)
    ∧ ((startWorkerTask WorkerTaskMethod.PUBLISH_SITE posts processer now).1.findIdx
          isCommitOp
        < (startWorkerTask WorkerTaskMethod.PUBLISH_SITE posts processer now).1.findIdx
          isPushOp)
    ∧ ((startWorkerTask WorkerTaskMethod.PUBLISH_SITE posts processer now).1.findIdx
          isPushOp
        < (startWorkerTask WorkerTaskMethod.PUBLISH_SITE posts processer now).1.findIdx
          isSymlinkOp)
    ∧ ((startWorkerTask WorkerTaskMethod.PUBLISH_SITE posts processer now).1.findIdx
          isSymlinkOp
        < (startWorkerTask WorkerTaskMethod.PUBLISH_SITE posts processer now).1.findIdx
          isGenerateOp)
    ∧ ((startWorkerTask WorkerTaskMethod.PUBLISH_SITE posts processer now).1.findIdx
          isGenerateOp
        < (startWorkerTask WorkerTaskMethod.PUBLISH_SITE posts processer now).1.findIdx
          isMarkerFilesOp)
    ∧ ((startWorkerTask WorkerTaskMethod.PUBLISH_SITE posts processer now).1.findIdx
          isMarkerFilesOp
        < (startWorkerTask WorkerTaskMethod.PUBLISH_SITE posts processer now).1.findIdx
          isPublishPagesOp) := by
  simp [publish_trace, List.findIdx_cons,
    isFetchOp, isCommitOp, isPushOp, isSymlinkOp, isGenerateOp,
    isMarkerFilesOp, isPublishPagesOp]

/-- Claim C2: for a batch of N posts of which K fail, the fan-out settles all
N per-post operations (one result per post, each paired with its own post, no
short-circuit), exactly K error reports are produced — one per rejected post,
tagged with that post's data and marked non-retryable — the three batch
methods resolve (with the reports) instead of throwing, and the dispatcher's
CREATE_POSTS trace still ends with the commit and push operations after the
fan-out. -/
theorem post_batch_fanout_isolation (posts : List Post)
    (processer : Post → Except String Unit) (now : Nat) :
    (processHexoPostFile posts processer).length = posts.length
    ∧ (processHexoPostFile posts processer).map PostTaskResult.post = posts
    ∧ (processPostTaskResults (processHexoPostFile posts processer)).map
        (fun r => r.data.post) = posts.filter (failingPost processer)
    ∧ (processPostTaskResults (processHexoPostFile posts processer)).length
        = (posts.filter (failingPost processer)).length
    ∧ ((processPostTaskResults (processHexoPostFile posts processer)).all
        (fun r => !r.retryable && isRejectedResult r.data)) = true
    ∧ createHexoPostFiles true posts processer
        = Except.ok (processPostTaskResults (processHexoPostFile posts processer))
    ∧ createHexoDraftFiles true posts processer
        = Except.ok (processPostTaskResults (processHexoPostFile posts processer))
    ∧ deleteHexoPostFiles true posts processer
        = Except.ok (processPostTaskResults (processHexoPostFile posts processer))
    ∧ (startWorkerTask WorkerTaskMethod.CREATE_POSTS posts processer now).2 = none
    ∧ (startWorkerTask WorkerTaskMethod.CREATE_POSTS posts processer now).1
        = [Op.gitServiceFactory, Op.fetchRemoteStorageRepository,
           Op.hexoServiceFactory, Op.symlinkWorkspaceDirectoryAndFiles]
          ++ (posts.map (fun p => Op.attemptPost p.title)
              ++ (processPostTaskResults
                    (processHexoPostFile posts processer)).map
                  (fun r => Op.reportErrored r.data.post.title))
          ++ [Op.commitStorageRepositoryAllChanges ("Create post " ++ toString now),
              Op.pushStorageRepositoryToRemote] := by
  refine ⟨?_, ?_, ?_, ?_, ?_, ?_, ?_, ?_, ?_, ?_⟩
  · simp [processHexoPostFile_eq]
  · simp [processHexoPostFile_eq, List.map_map, Function.comp_def]
  · simp [processPostTaskResults_fanout, List.map_map, Function.comp_def]
  · simp [processPostTaskResults_fanout]
  · rw [processPostTaskResults_fanout, List.all_eq_true]
    intro r hr
    rw [List.mem_map] at hr
    obtain ⟨p, hp, rdef⟩ := hr
    have hfail : failingPost processer p = true := List.of_mem_filter hp
    cases hfp : processer p with
    | ok v => simp [failingPost, hfp] at hfail
    | error e => simp [← rdef, isRejectedResult, settleOutcome, hfp]
  · rfl
  · rfl
  · rfl
  · rw [create_posts_trace]
  · rw [create_posts_trace]
    simp [processHexoPostFileOps]

/-- Claim C6: a post whose rename marker `META_SPACE_INTERNAL_NEW_TITLE` is a
truthy (non-empty) string triggers exactly a removal of the old post file
keyed by the original title followed by a creation under the new title; a
post without the marker triggers a single creation and no removal — a rename
is never performed as an in-place update of the file under the old title. -/
theorem rename_marker_remove_before_create (update : Bool) (nowISO : String)
    (post : Post) :
    (∀ t, post.META_SPACE_INTERNAL_NEW_TITLE = some t → t ≠ "" →
      createPostTaskActions update nowISO post
        = [HexoAction.removePost post.title "post",
           HexoAction.createPost t "post" update])
    ∧ (post.META_SPACE_INTERNAL_NEW_TITLE = none →
        createPostTaskActions update nowISO post
          = [HexoAction.createPost post.title "post" update]) := by
  constructor
  · intro t ht hne
    simp [createPostTaskActions, jsTruthy, ht, hne,
      processMetaSpaceInternalProperties, removeHexoPostFile,
      createHexoPostFile, convertMetaPostInfoToHexoPostInfo]
  · intro h
    simp [createPostTaskActions, jsTruthy, h,
      processMetaSpaceInternalProperties, createHexoPostFile,
      convertMetaPostInfoToHexoPostInfo]

/-- Witness for claim C6: a concrete renamed post and a concrete plain post. -/
theorem rename_marker_remove_before_create_witness :
    createPostTaskActions true "2022-01-07T07:45:50.574Z"
        { title := "Old title", source := "body",
          META_SPACE_INTERNAL_NEW_TITLE := some "New title" }
      = [HexoAction.removePost "Old title" "post",
         HexoAction.createPost "New title" "post" true]
    ∧ createPostTaskActions false "2022-01-07T07:45:50.574Z"
        { title := "Plain title", source := "body" }
      = [HexoAction.createPost "Plain title" "post" false] :=
  ⟨(rename_marker_remove_before_create true "2022-01-07T07:45:50.574Z"
      { title := "Old title", source := "body",
        META_SPACE_INTERNAL_NEW_TITLE := some "New title" }).1
    "New title" rfl (by decide),
   (rename_marker_remove_before_create false "2022-01-07T07:45:50.574Z"
      { title := "Plain title", source := "body" }).2 rfl⟩

/-- Claim C7: the generator-config merge is the shallow spread
default < internal generator default < template < workspace < task-derived in
which later layers win: a key present in both the default layer and the
task-derived layer gets the task-derived value; a key present only in the
default layer keeps the default value. -/
theorem config_merge_precedence {V : Type}
    (deftConf hexoConf tempConf workConf userConf : ConfigObj V)
    (k : String) :
    (∀ d u, deftConf k = some d → userConf k = some u →
      buildFinalHexoConfig deftConf hexoConf tempConf workConf userConf k
        = some u)
    ∧ (∀ d, deftConf k = some d → hexoConf k = none → tempConf k = none →
        workConf k = none → userConf k = none →
        buildFinalHexoConfig deftConf hexoConf tempConf workConf userConf k
          = some d) := by
  constructor
  · intro d u hD hU
    simp [buildFinalHexoConfig, objectSpread, hU]
  · intro d hD h1 h2 h3 h4
    simp [buildFinalHexoConfig, objectSpread, hD, h1, h2, h3, h4]

/-- Witness for claim C7 on concrete layers: the key `title` is set in both
the default and the task layer and the task value wins; the key `language` is
set only in the default layer and survives the merge. -/
theorem config_merge_precedence_witness :
    buildFinalHexoConfig
        (fun k => if k = "title" then (some 1 : Option Nat)
          else if k = "language" then some 2 else none)
        (fun _ => none) (fun _ => none) (fun _ => none)
        (fun k => if k = "title" then some 9 else none) "title" = some 9
    ∧ buildFinalHexoConfig
        (fun k => if k = "title" then (some 1 : Option Nat)
          else if k = "language" then some 2 else none)
        (fun _ => none) (fun _ => none) (fun _ => none)
        (fun k => if k = "title" then some 9 else none) "language" = some 2 :=
  ⟨(config_merge_precedence
      (fun k => if k = "title" then (some 1 : Option Nat)
        else if k = "language" then some 2 else none)
      (fun _ => none) (fun _ => none) (fun _ => none)
      (fun k => if k = "title" then some 9 else none) "title").1
    1 9 (by decide) (by decide),
   (config_merge_precedence
      (fun k => if k = "title" then (some 1 : Option Nat)
        else if k = "language" then some 2 else none)
      (fun _ => none) (fun _ => none) (fun _ => none)
      (fun k => if k = "title" then some 9 else none) "language").2
    2 (by decide) rfl rfl rfl (by decide)⟩

/-- Claim C8, evaluation at the failing input: on a fresh generator
installation (the destination path does not exist) `createSymlink` rejects
with ENOENT, because the un-awaited `exists` promise is truthy and the
`.bak` rename is attempted unconditionally; the variant following the code's
own comment (`If destination is exists, rename with .bak`) succeeds there,
and the shipped code handles the pre-existing-destination case as claimed
(backup rename, then symlink). -/
theorem createSymlink_fresh_destination_enoent :
    createSymlink ["/opt/Workspace/site/_config.yml"]
        "/opt/Workspace/site/_config.yml" "/opt/Template/_config.yml"
      = Except.error (JsError.enoent "/opt/Template/_config.yml")
    ∧ createSymlinkIntended ["/opt/Workspace/site/_config.yml"]
        "/opt/Workspace/site/_config.yml" "/opt/Template/_config.yml"
      = Except.ok ["/opt/Template/_config.yml", "/opt/Workspace/site/_config.yml"]
    ∧ createSymlink
        ["/opt/Template/_config.yml", "/opt/Workspace/site/_config.yml"]
        "/opt/Workspace/site/_config.yml" "/opt/Template/_config.yml"
      = Except.ok
          ["/opt/Template/_config.yml", "/opt/Template/_config.yml.bak",
           "/opt/Workspace/site/_config.yml"] :=
  ⟨rfl, rfl, rfl⟩

/-- Claim C9: marker-file creation is idempotent — a second invocation of
`createDotNoJekyllFile` (resp. `createCNameFile`) on the same directory is a
no-op (the file system, including the write trace, is unchanged), each single
invocation performs at most one write, and `createCNameFile` with empty
(falsy) content writes nothing. -/
theorem marker_file_creation_idempotent (fs : MarkerFs)
    (workDir content : String) :
    createDotNoJekyllFile (createDotNoJekyllFile fs workDir false) workDir false
      = createDotNoJekyllFile fs workDir false
    ∧ (createDotNoJekyllFile fs workDir false).writes.length
        ≤ fs.writes.length + 1
    ∧ createCNameFile (createCNameFile fs workDir content) workDir content
      = createCNameFile fs workDir content
    ∧ (createCNameFile fs workDir content).writes.length
        ≤ fs.writes.length + 1
    ∧ createCNameFile fs workDir "" = fs := by
  refine ⟨?_, ?_, ?_, ?_, ?_⟩
  · by_cases h : markerExists fs (joinPath workDir ".nojekyll")
    · simp [createDotNoJekyllFile, h]
    · have h1 : createDotNoJekyllFile fs workDir false
          = { files := joinPath workDir ".nojekyll" :: fs.files,
              writes := fs.writes ++ [joinPath workDir ".nojekyll"] } := by
        simp [createDotNoJekyllFile, h]
      have h2 : markerExists
          { files := joinPath workDir ".nojekyll" :: fs.files,
            writes := fs.writes ++ [joinPath workDir ".nojekyll"] }
          (joinPath workDir ".nojekyll") = true := by
        simp [markerExists]
      rw [h1]
      simp [createDotNoJekyllFile, h2]
  · by_cases h : markerExists fs (joinPath workDir ".nojekyll")
    · simp [createDotNoJekyllFile, h]
    · simp [createDotNoJekyllFile, h]
  · by_cases hc : content = ""
    · simp [createCNameFile, hc]
    · by_cases h : markerExists fs (joinPath workDir "CNAME")
      · simp [createCNameFile, hc, h]
      · have h1 : createCNameFile fs workDir content
            = { files := joinPath workDir "CNAME" :: fs.files,
                writes := fs.writes ++ [joinPath workDir "CNAME"] } := by
          simp [createCNameFile, hc, h]
        have h2 : markerExists
            { files := joinPath workDir "CNAME" :: fs.files,
              writes := fs.writes ++ [joinPath workDir "CNAME"] }
            (joinPath workDir "CNAME") = true := by
          simp [markerExists]
        rw [h1]
        simp [createCNameFile, hc, h2]
  · by_cases hc : content = ""
    · simp [createCNameFile, hc]
    · by_cases h : markerExists fs (joinPath workDir "CNAME")
      · simp [createCNameFile, hc, h]
      · simp [createCNameFile, hc, h]
  · simp [createCNameFile]

/-- Claim C10: for a deploy or publish task, an empty (or missing) site
domain makes `getHexoConfigFromTaskConfig` throw (`formatUrl`'s assert),
and a non-empty domain makes `formatUrl` return a non-empty string which
becomes the config's `url` unchanged — the `|| DEFAULT_HEXO_PUBLIC_URL`
fallback is unreachable in both cases. -/
theorem hexo_url_requires_domain (isDeploy isPublish : Bool)
    (site : SiteInfo) (user : UCenterUser)
    (hTask : (isDeploy || isPublish) = true) :
    (site.domain = "" →
      getHexoConfigFromTaskConfig isDeploy isPublish site user
        = Except.error (JsError.typeError "parameter url is required!"))
    ∧ (site.domain ≠ "" →
        ∃ s, formatUrl site.domain = Except.ok s ∧ s ≠ ""
          ∧ ∃ conf, getHexoConfigFromTaskConfig isDeploy isPublish site user
              = Except.ok (some conf) ∧ conf.url = s) := by
  constructor
  · intro hd
    simp [getHexoConfigFromTaskConfig, hTask, formatUrl, hd]
  · intro hd
    have hok : ∃ s, formatUrl site.domain = Except.ok s ∧ s ≠ "" := by
      by_cases hp : startsWithHttpProtocol site.domain = true
      · refine ⟨urlToHttpsHref site.domain, ?_, ?_⟩
        · simp [formatUrl, hd, hp]
        · by_cases hh : site.domain.startsWith "http://" = true
          · simp [urlToHttpsHref, hh]
            exact https_prefix_ne_empty _
          · simp [urlToHttpsHref, hh]
            exact hd
      · refine ⟨"https://" ++ site.domain, ?_, https_prefix_ne_empty _⟩
        simp [formatUrl, hd, hp]
    obtain ⟨s, hs, hne⟩ := hok
    refine ⟨s, hs, hne, ?_⟩
    cases hD : isDeploy with
    | true =>
      refine ⟨?_, ?_, ?_⟩
      · exact
          { title := site.title
            subtitle := site.subtitle
            description := site.description
            author := jsOrDefault site.author
              (jsOrDefault user.nickname user.username)
            avatar := jsOrDefault site.avatar DEFAULT_HEXO_AVATAR_URL
            keywords := site.keywords.getD []
            language := jsOrDefault site.language DEFAULT_HEXO_LANGUAGE
            timezone := jsOrDefault site.timezone DEFAULT_HEXO_TIMEZONE
            url := s }
      · simp [getHexoConfigFromTaskConfig, hs, jsOrDefault, hne]
      · rfl
    | false =>
      have hP : isPublish = true := by
        cases hI : isPublish with
        | true => rfl
        | false => rw [hD, hI] at hTask; simp at hTask
      refine ⟨?_, ?_, ?_⟩
      · exact
          { title := site.title
            subtitle := site.subtitle
            description := site.description
            author := site.author
            avatar := jsOrDefault site.avatar DEFAULT_HEXO_AVATAR_URL
            keywords := site.keywords.getD []
            language := jsOrDefault site.language DEFAULT_HEXO_LANGUAGE
            timezone := jsOrDefault site.timezone DEFAULT_HEXO_TIMEZONE
            url := s }
      · simp [getHexoConfigFromTaskConfig, hP, hs, jsOrDefault, hne]
      · rfl

/-- Witness for claim C10 at concrete publish-task sites: the empty domain
throws, the domain `metaspace.life` flows into the config url. -/
theorem hexo_url_requires_domain_witness :
    getHexoConfigFromTaskConfig false true
        { title := "t", subtitle := "s", description := "d", author := "a",
          avatar := "", keywords := none, language := "", timezone := "",
          domain := "" }
        { username := "john_doe", nickname := "John Doe" }
      = Except.error (JsError.typeError "parameter url is required!")
    ∧ (∃ s, formatUrl "metaspace.life" = Except.ok s ∧ s ≠ ""
        ∧ ∃ conf, getHexoConfigFromTaskConfig false true
            { title := "t", subtitle := "s", description := "d", author := "a",
              avatar := "", keywords := none, language := "", timezone := "",
              domain := "metaspace.life" }
            { username := "john_doe", nickname := "John Doe" }
          = Except.ok (some conf) ∧ conf.url = s) :=
  ⟨(hexo_url_requires_domain false true
      { title := "t", subtitle := "s", description := "d", author := "a",
        avatar := "", keywords := none, language := "", timezone := "",
        domain := "" }
      { username := "john_doe", nickname := "John Doe" } (by decide)).1 rfl,
   (hexo_url_requires_domain false true
      { title := "t", subtitle := "s", description := "d", author := "a",
        avatar := "", keywords := none, language := "", timezone := "",
        domain := "metaspace.life" }
      { username := "john_doe", nickname := "John Doe" } (by decide)).2
     (by decide)⟩

end MetaCmsWorker
